import Mathlib

/-!
Verification of the server-listing endpoint of `drf-react-chat`
(`djchat/server/views.py`, `ServerListViewSet.list`).

The endpoint is a single linear pass of conditional filters over the Server
collection, driven by the query parameters `category`, `by_user`,
`with_num_members`, `by_serverid` and `qty`, with authentication gating on
`by_user` and `by_serverid` and validation errors on malformed or
unresolvable `by_serverid`.

The view keeps the collection handle in a class-level attribute
(`queryset = Server.objects.all()`) and progressively narrows it through
`self.queryset = self.queryset.filter(...)`; we model that statefully:
`listFrom` takes the queryset the instance currently holds and returns both
the narrowed queryset the instance is left with and the request's outcome.
A fresh instance starts from the full store, which gives `list`.
-/

deriving instance DecidableEq for Except

namespace DrfChat

/-- Modelled from the spec: `models.py` is not among the sources. Per the
spec's data model a Server has an identifier, a category reference (a named
grouping, held here by name) and a many-to-many set of member identifiers. -/
structure Server where
  id : Int
  categoryName : String
  members : List Nat
deriving DecidableEq, Repr

/-- The per-request inputs of `ServerListViewSet.list`: the five query
parameters read via `request.query_params.get` (absent parameter = `none`)
and the requesting identity (`request.user.is_authenticated`,
`request.user.id`). -/
structure Request where
  category : Option String
  qty : Option String
  by_user : Option String
  by_serverid : Option String
  with_num_members : Option String
  isAuthenticated : Bool
  userId : Nat
deriving DecidableEq, Repr

/-- The ways `list` can terminate without a response: the two raised DRF
exceptions (`AuthenticationFailed`, `ValidationError(detail)`), the Python
`ValueError` escaping from `int(qty)` on a malformed `qty` (no handler in
`list`), and the error Django raises when a queryset is sliced with a
negative bound. -/
inductive Error where
  | authenticationFailed
  | validationError (detail : String)
  | unhandledValueError
  | negativeIndexUnsupported
deriving DecidableEq, Repr

/-- Modelled from the spec: `serializer.py` (ServerSerializer) is not among
the sources. Per the spec the representation carries the server's id,
category and member info, plus a `num_members` field present if and only if
`with_num_members` was true for the request. -/
structure ServerView where
  id : Int
  categoryName : String
  members : List Nat
  num_members : Option Nat
deriving DecidableEq, Repr

/-- Python `str.strip()` on both ends: drop leading and trailing
whitespace. -/
def pyStrip (cs : List Char) : List Char :=
  ((cs.dropWhile Char.isWhitespace).reverse.dropWhile Char.isWhitespace).reverse

/-- Python `int(s)` on the digit part: every character a decimal digit,
at least one of them. -/
def digitsVal? (cs : List Char) : Option Nat :=
  if cs ≠ [] ∧ cs.all Char.isDigit then
    some (cs.foldl (fun a c => a * 10 + (c.toNat - 48)) 0)
  else none

/-- Python `int(s)` for decimal strings: surrounding whitespace stripped,
optional sign, then digits; `none` models the raised `ValueError`. Django
performs the same conversion when an id field is filtered with a string. -/
def pyInt? (s : String) : Option Int :=
  match pyStrip s.toList with
  | '-' :: rest => (digitsVal? rest).map (fun n => -(n : Int))
  | '+' :: rest => (digitsVal? rest).map (fun n => (n : Int))
  | cs => (digitsVal? cs).map (fun n => (n : Int))

/-- Modelled from the spec: the value of the `num_members` annotation
(`Count("member")` over the external ORM; `models.py` is not among the
sources) is the count of distinct members of the server. -/
def numMembers (s : Server) : Nat := s.members.dedup.length

/-- One serialized server; `num_members` is filled exactly when the
serializer context's `num_members` flag (the view's `with_num_members`)
is true. -/
def serverView (wnm : Bool) (s : Server) : ServerView :=
  { id := s.id, categoryName := s.categoryName, members := s.members,
    num_members := if wnm then some (numMembers s) else none }

/-- `ServerSerializer(queryset, many=True, context=...)`: serialize the
surviving servers in order. -/
def serialize (wnm : Bool) (qs : List Server) : List ServerView :=
  qs.map (serverView wnm)

/-- `if category: self.queryset = self.queryset.filter(category__name=category)`:
applied only for a present, non-empty (truthy) parameter; exact,
case-sensitive match on the category name. -/
def categoryFilter (cat : Option String) (qs : List Server) : List Server :=
  match cat with
  | some c => if c ≠ "" then qs.filter (fun s => s.categoryName == c) else qs
  | none => qs

/-- `self.queryset = self.queryset.filter(member=user_id)`: keep the servers
whose member set contains the given user id; identity when `by_user` did not
request it. -/
def memberFilter (b : Bool) (uid : Nat) (qs : List Server) : List Server :=
  if b then qs.filter (fun s => s.members.contains uid) else qs

/-- `self.queryset = self.queryset[: int(qty)]` guarded by `if qty:`, then
serialization. `int(qty)` raises an uncaught `ValueError` on a non-integer
string, and Django rejects a negative slice bound; otherwise the queryset is
truncated to its first `qty` elements and serialized. Returns the queryset
the instance is left holding together with the outcome. -/
def qtyStep (wnm : Bool) (qty : Option String) (qs : List Server) :
    List Server × Except Error (List ServerView) :=
  match qty with
  | some q =>
    if q ≠ "" then
      match pyInt? q with
      | none => (qs, .error .unhandledValueError)
      | some n =>
        if n < 0 then (qs, .error .negativeIndexUnsupported)
        else (qs.take n.toNat, .ok (serialize wnm (qs.take n.toNat)))
    else (qs, .ok (serialize wnm qs))
  | none => (qs, .ok (serialize wnm qs))

/-- `ServerListViewSet.list`, started from the queryset `qs0` the instance
currently holds in `self.queryset`. Mirrors the source order: category
filter, `by_user` gate and filter, `with_num_members` annotation (carried by
the flag into serialization; it does not change the set), `by_serverid` gate,
parse, filter and existence check, then `qty` truncation and serialization.
Returns the queryset the instance is left with and the outcome. -/
def listFrom (qs0 : List Server) (req : Request) :
    List Server × Except Error (List ServerView) :=
  let by_user := req.by_user == some "true"
  let wnm := req.with_num_members == some "true"
  let qs1 := categoryFilter req.category qs0
  if by_user && !req.isAuthenticated then
    (qs1, .error .authenticationFailed)
  else
    let qs2 := memberFilter by_user req.userId qs1
    match req.by_serverid with
    | some sid =>
      if sid ≠ "" then
        if !req.isAuthenticated then (qs2, .error .authenticationFailed)
        else
          match pyInt? sid with
          | none => (qs2, .error (.validationError "Server value error"))
          | some n =>
            let qs3 := qs2.filter (fun s => s.id == n)
            if qs3.isEmpty then
              (qs3, .error (.validationError
                ("Server with id " ++ sid ++ " not found")))
            else qtyStep wnm req.qty qs3
      else qtyStep wnm req.qty qs2
    | none => qtyStep wnm req.qty qs2

/-- One request served by a fresh viewset instance: `self.queryset` starts
at the class attribute `Server.objects.all()`, i.e. the full store. -/
def list (store : List Server) (req : Request) : Except Error (List ServerView) :=
  (listFrom store req).2

/-- The predicate the category parameter imposes on a server. -/
def catPred (cat : Option String) (s : Server) : Bool :=
  match cat with
  | some c => if c ≠ "" then s.categoryName == c else true
  | none => true

/-- The predicate the `by_user` filter imposes on a server. -/
def userPred (b : Bool) (uid : Nat) (s : Server) : Bool :=
  if b then s.members.contains uid else true

/-- The predicate a parsed `by_serverid` imposes on a server. -/
def idPred (i : Option Int) (s : Server) : Bool :=
  match i with
  | some v => s.id == v
  | none => true

/-- The id a truthy `by_serverid` parameter supplies, when it parses. -/
def suppliedId (bsid : Option String) : Option Int :=
  match bsid with
  | some sid => if sid ≠ "" then pyInt? sid else none
  | none => none

/-- The `by_serverid` restriction as a standalone set filter. -/
def idFilter (i : Option Int) (qs : List Server) : List Server :=
  match i with
  | some v => qs.filter (fun s => s.id == v)
  | none => qs

/-- The logical AND of every supplied filter, applied to the full store in
one pass. -/
def andFiltered (store : List Server) (req : Request) : List Server :=
  store.filter (fun s =>
    catPred req.category s
      && userPred (req.by_user == some "true") req.userId s
      && idPred (suppliedId req.by_serverid) s)

/-- The `qty` truncation as a standalone transform (identity when a success
path ignores it). -/
def pyTake (qty : Option String) (qs : List Server) : List Server :=
  match qty with
  | some q =>
    if q ≠ "" then
      match pyInt? q with
      | some n => qs.take n.toNat
      | none => qs
    else qs
  | none => qs

/-- A request with every parameter absent, from an authenticated user 1. -/
def req0 : Request :=
  { category := none, qty := none, by_user := none, by_serverid := none,
    with_num_members := none, isAuthenticated := true, userId := 1 }

/-- Spec §8 scenario, server A: category Gaming, members 1 and 2. -/
def srvA : Server := { id := 1, categoryName := "Gaming", members := [1, 2] }

/-- Spec §8 scenario, server B: category Education, member 1. -/
def srvB : Server := { id := 2, categoryName := "Education", members := [1] }

example : pyInt? "0" = some 0 := by decide
example : pyInt? " 42 " = some 42 := by decide
example : pyInt? "-3" = some (-3) := by decide
example : pyInt? "abc" = none := by decide
example : pyInt? "" = none := by decide

example : list [srvA, srvB] { req0 with category := some "Gaming" }
    = .ok [serverView false srvA] := by decide

example : list [srvA, srvB] { req0 with by_user := some "true", isAuthenticated := false }
    = .error .authenticationFailed := by decide

example : list [srvA, srvB] { req0 with by_serverid := some "999" }
    = .error (.validationError "Server with id 999 not found") := by decide

example : list [srvA, srvB] { req0 with by_serverid := some "abc" }
    = .error (.validationError "Server value error") := by decide

example : list [srvA, srvB] { req0 with qty := some "1", with_num_members := some "true" }
    = .ok [serverView true srvA] := by decide

example : list [srvA, srvB] { req0 with by_user := some "true" }
    = .ok [serverView false srvA, serverView false srvB] := by decide

theorem categoryFilter_eq_filter (cat : Option String) (qs : List Server) :
    categoryFilter cat qs = qs.filter (catPred cat) := by
  unfold categoryFilter catPred
  cases cat with
  | none => simp
  | some c => by_cases h : c = "" <;> simp [h]

theorem memberFilter_eq_filter (b : Bool) (uid : Nat) (qs : List Server) :
    memberFilter b uid qs = qs.filter (userPred b uid) := by
  unfold memberFilter userPred
  cases b <;> simp

theorem idFilter_eq_filter (i : Option Int) (qs : List Server) :
    idFilter i qs = qs.filter (idPred i) := by
  unfold idFilter idPred
  cases i <;> simp

theorem filter_swap (p q : Server → Bool) (l : List Server) :
    (l.filter p).filter q = (l.filter q).filter p := by
  simp only [List.filter_filter]
  exact List.filter_congr (fun x _ => Bool.and_comm _ _)

theorem pre_eq (store : List Server) (req : Request) :
    memberFilter (req.by_user == some "true") req.userId
        (categoryFilter req.category store)
      = store.filter (fun s => catPred req.category s
          && userPred (req.by_user == some "true") req.userId s) := by
  rw [categoryFilter_eq_filter, memberFilter_eq_filter, List.filter_filter]
  exact List.filter_congr (fun x _ => Bool.and_comm _ _)

theorem andFiltered_eq (store : List Server) (req : Request) :
    andFiltered store req
      = idFilter (suppliedId req.by_serverid)
          (memberFilter (req.by_user == some "true") req.userId
            (categoryFilter req.category store)) := by
  rw [idFilter_eq_filter, pre_eq, List.filter_filter]
  unfold andFiltered
  exact List.filter_congr (fun x _ => Bool.and_comm _ _)

theorem qtyStep_ok_shape (wnm : Bool) (qty : Option String) (qs : List Server)
    (out : List ServerView) (h : (qtyStep wnm qty qs).2 = .ok out) :
    out = serialize wnm (pyTake qty qs) := by
  cases qty with
  | none => simp [qtyStep] at h; simp [pyTake, h.symm]
  | some q =>
    by_cases hq : q = ""
    · simp [qtyStep, hq] at h; simp [pyTake, hq, h.symm]
    · cases hp : pyInt? q with
      | none => simp [qtyStep, hq, hp] at h
      | some n =>
        by_cases hn : n < 0
        · simp [qtyStep, hq, hp, hn] at h
        · simp [qtyStep, hq, hp, hn] at h; simp [pyTake, hq, hp, h.symm]

theorem list_ok_shape (store : List Server) (req : Request) (out : List ServerView)
    (h : list store req = .ok out) :
    out = serialize (req.with_num_members == some "true")
      (pyTake req.qty (andFiltered store req)) := by
  simp only [list, listFrom] at h
  cases hgate : (req.by_user == some "true") && !req.isAuthenticated with
  | true => simp only [hgate, if_true] at h; simp at h
  | false =>
    simp only [hgate, Bool.false_eq_true, if_false] at h
    cases hbs : req.by_serverid with
    | none =>
      rw [hbs] at h
      simp only [] at h
      have hsh := qtyStep_ok_shape _ _ _ _ h
      rw [andFiltered_eq, hbs]
      simpa [suppliedId, idFilter] using hsh
    | some sid =>
      rw [hbs] at h
      by_cases hsid : sid = ""
      · simp only [hsid] at h
        simp only [ne_eq, not_true_eq_false, if_false] at h
        have hsh := qtyStep_ok_shape _ _ _ _ h
        rw [andFiltered_eq, hbs]
        simpa [suppliedId, hsid, idFilter] using hsh
      · simp only [ne_eq, hsid, not_false_eq_true, if_true] at h
        cases hauth : req.isAuthenticated with
        | false => simp [hauth] at h
        | true =>
          simp only [hauth, Bool.not_true, Bool.false_eq_true, if_false] at h
          cases hp : pyInt? sid with
          | none => simp [hp] at h
          | some n =>
            rw [hp] at h
            simp only [] at h
            by_cases hemp : ((memberFilter (req.by_user == some "true") req.userId
                (categoryFilter req.category store)).filter (fun s => s.id == n)).isEmpty
            · simp [hemp] at h
            · simp only [hemp, Bool.false_eq_true, if_false] at h
              have hsh := qtyStep_ok_shape _ _ _ _ h
              rw [andFiltered_eq, hbs]
              simpa [suppliedId, hsid, hp, idFilter] using hsh

theorem pyTake_subset (qty : Option String) (qs : List Server) : pyTake qty qs ⊆ qs := by
  unfold pyTake
  cases qty with
  | none => exact fun _ h => h
  | some q =>
    by_cases hq : q = ""
    · simp [hq]
    · simp only [ne_eq, hq, not_false_eq_true, if_true]
      cases pyInt? q with
      | none => exact fun _ h => h
      | some n => exact List.take_subset _ _

theorem pyTake_eq_take (qty : Option String) (qs : List Server) :
    ∃ k, pyTake qty qs = qs.take k := by
  unfold pyTake
  cases qty with
  | none => exact ⟨qs.length, (List.take_length qs).symm⟩
  | some q =>
    by_cases hq : q = ""
    · simp only [ne_eq, hq, not_true_eq_false, if_false]
      exact ⟨qs.length, (List.take_length qs).symm⟩
    · simp only [ne_eq, hq, not_false_eq_true, if_true]
      cases pyInt? q with
      | none => exact ⟨qs.length, (List.take_length qs).symm⟩
      | some n => exact ⟨n.toNat, rfl⟩

theorem andFiltered_subset (store : List Server) (req : Request) :
    andFiltered store req ⊆ store := by
  unfold andFiltered
  exact fun a ha => (List.mem_filter.mp ha).1

theorem isEmpty_false_of_ne_nil {l : List Server} (h : l ≠ []) : l.isEmpty = false := by
  cases hl : l.isEmpty with
  | false => rfl
  | true => exact absurd (List.isEmpty_iff.mp hl) h

/-- C1: a request with `by_user` equal to the exact string "true" from an
unauthenticated caller fails with the authentication error no matter what
the other parameters are; any other `by_user` value (absent, "True", ...)
behaves exactly as if `by_user` had been omitted, so no authentication
check is triggered by it. -/
theorem C1_by_user_auth_gate (store : List Server) (req : Request) :
    (req.by_user = some "true" → req.isAuthenticated = false →
      list store req = .error .authenticationFailed)
  ∧ (req.by_user ≠ some "true" →
      list store req = list store { req with by_user := none }) := by
  constructor
  · intro hb ha
    simp [list, listFrom, hb, ha]
  · intro hb
    have hbeq : (req.by_user == some "true") = false := by
      simp only [beq_eq_false_iff_ne, ne_eq]
      exact hb
    simp [list, listFrom, hbeq]

/-- C1 witness: the unauthenticated `by_user=true` request on an empty store
is rejected with the authentication error. -/
theorem C1_witness :
    list [] { req0 with by_user := some "true", isAuthenticated := false }
      = .error .authenticationFailed :=
  (C1_by_user_auth_gate [] _).1 rfl rfl

/-- C2: for an authenticated caller, a `by_serverid` that parses as an
integer but survives none of the previously applied filters (for example
because the category filter excluded it) fails with the validation error
whose detail interpolates the supplied id verbatim; the filters up to that
point are the logical AND of the category and membership predicates, with
category applied first. -/
theorem C2_serverid_not_found (store : List Server) (req : Request) (sid : String) (n : Int)
    (hauth : req.isAuthenticated = true)
    (hsid : req.by_serverid = some sid) (hne : sid ≠ "")
    (hparse : pyInt? sid = some n)
    (hmiss : (memberFilter (req.by_user == some "true") req.userId
        (categoryFilter req.category store)).filter (fun s => s.id == n) = []) :
    list store req = .error (.validationError ("Server with id " ++ sid ++ " not found"))
    ∧ memberFilter (req.by_user == some "true") req.userId (categoryFilter req.category store)
        = store.filter (fun s => catPred req.category s
            && userPred (req.by_user == some "true") req.userId s) := by
  refine ⟨?_, pre_eq store req⟩
  simp only [list, listFrom, hsid]
  simp [hauth, hne, hparse, hmiss]

/-- C2 witness: id 1 exists in the store but the category filter Education
excludes it, so the request fails with the interpolated not-found detail. -/
theorem C2_witness :
    list [srvA] { req0 with category := some "Education", by_serverid := some "1" }
      = .error (.validationError "Server with id 1 not found") :=
  (C2_serverid_not_found [srvA] _ "1" 1 rfl rfl (by decide) (by decide) (by decide)).1

/-- C3: for an authenticated caller, a non-empty `by_serverid` that does not
parse as an integer fails with the validation error whose detail is exactly
"Server value error". -/
theorem C3_serverid_value_error (store : List Server) (req : Request) (sid : String)
    (hauth : req.isAuthenticated = true)
    (hsid : req.by_serverid = some sid) (hne : sid ≠ "")
    (hparse : pyInt? sid = none) :
    list store req = .error (.validationError "Server value error") := by
  simp only [list, listFrom, hsid]
  simp [hauth, hne, hparse]

/-- C3 witness: `by_serverid=abc` from an authenticated caller fails with
the "Server value error" detail. -/
theorem C3_witness :
    list [srvA, srvB] { req0 with by_serverid := some "abc" }
      = .error (.validationError "Server value error") :=
  C3_serverid_value_error [srvA, srvB] _ "abc" rfl rfl (by decide) (by decide)

/-- C5: the view keeps its collection handle in a mutable `queryset`
attribute and narrows it in place, so the filter applied while serving one
request is still in force when the same viewset instance serves the next
one: after a request filtered to category Gaming, a parameterless request
served through the retained handle returns only the Gaming server, while a
fresh pipeline over the same store returns both servers. -/
theorem C5_shared_queryset_state_leak :
    (listFrom (listFrom [srvA, srvB] { req0 with category := some "Gaming" }).1 req0).2
        = .ok [serverView false srvA]
    ∧ list [srvA, srvB] req0
        = .ok [serverView false srvA, serverView false srvB]
    ∧ ([serverView false srvA] : List ServerView)
        ≠ [serverView false srvA, serverView false srvB] :=
  ⟨by decide, by decide, by decide⟩

/-- C4: when `with_num_members` is exactly "true" every returned
representation carries `num_members` equal to the count of distinct members
of the corresponding stored server, whatever other filters were applied;
for any other `with_num_members` value the field is absent from every
returned representation. -/
theorem C4_num_members_field (store : List Server) (req : Request) (out : List ServerView) :
    (req.with_num_members = some "true" → list store req = .ok out →
      ∀ v ∈ out, ∃ s ∈ store, v.id = s.id ∧ v.num_members = some s.members.dedup.length)
  ∧ (req.with_num_members ≠ some "true" → list store req = .ok out →
      ∀ v ∈ out, v.num_members = none) := by
  constructor
  · intro hw h v hv
    rw [list_ok_shape store req out h] at hv
    simp only [serialize, List.mem_map] at hv
    obtain ⟨s, hs, rfl⟩ := hv
    refine ⟨s, andFiltered_subset store req (pyTake_subset _ _ hs), rfl, ?_⟩
    simp [serverView, hw, numMembers]
  · intro hw h v hv
    rw [list_ok_shape store req out h] at hv
    simp only [serialize, List.mem_map] at hv
    obtain ⟨s, hs, rfl⟩ := hv
    have hbeq : (req.with_num_members == some "true") = false := by
      simp only [beq_eq_false_iff_ne, ne_eq]
      exact hw
    simp [serverView, hbeq]

/-- C4 witness: with `with_num_members=true` over the one-server store, the
single returned view carries the distinct member count of that server. -/
theorem C4_witness :
    ∃ s ∈ [srvA], (serverView true srvA).id = s.id ∧
      (serverView true srvA).num_members = some s.members.dedup.length :=
  (C4_num_members_field [srvA] { req0 with with_num_members := some "true" }
      [serverView true srvA]).1 rfl (by decide) (serverView true srvA) (by decide)

/-- C6: every successful response is a take-prefix of the store filtered in
one pass by the conjunction of the category, membership and id predicates
(`qty` being the final positional slice), the chain applied in source order
equals that one-pass AND filter, and the three set filters commute
pairwise, so permuting their application order cannot change the result
set. -/
theorem C6_filters_commute_and_compose (store : List Server) (req : Request) (out : List ServerView) :
    (list store req = .ok out →
      ∃ k, out = serialize (req.with_num_members == some "true")
        ((andFiltered store req).take k))
  ∧ idFilter (suppliedId req.by_serverid)
      (memberFilter (req.by_user == some "true") req.userId
        (categoryFilter req.category store)) = andFiltered store req
  ∧ (∀ qs : List Server,
      categoryFilter req.category (memberFilter (req.by_user == some "true") req.userId qs)
        = memberFilter (req.by_user == some "true") req.userId (categoryFilter req.category qs))
  ∧ (∀ qs : List Server,
      idFilter (suppliedId req.by_serverid)
          (memberFilter (req.by_user == some "true") req.userId qs)
        = memberFilter (req.by_user == some "true") req.userId
            (idFilter (suppliedId req.by_serverid) qs))
  ∧ (∀ qs : List Server,
      idFilter (suppliedId req.by_serverid) (categoryFilter req.category qs)
        = categoryFilter req.category (idFilter (suppliedId req.by_serverid) qs)) := by
  refine ⟨?_, (andFiltered_eq store req).symm, ?_, ?_, ?_⟩
  · intro h
    have hsh := list_ok_shape store req out h
    obtain ⟨k, hk⟩ := pyTake_eq_take req.qty (andFiltered store req)
    exact ⟨k, by rw [hsh, hk]⟩
  · intro qs
    simp only [categoryFilter_eq_filter, memberFilter_eq_filter]
    exact filter_swap _ _ _
  · intro qs
    simp only [idFilter_eq_filter, memberFilter_eq_filter]
    exact filter_swap _ _ _
  · intro qs
    simp only [idFilter_eq_filter, categoryFilter_eq_filter]
    exact filter_swap _ _ _

/-- C6 witness: the successful `qty=1` response over the two-server store is
a take-prefix of the AND-filtered store. -/
theorem C6_witness :
    ∃ k, [serverView false srvA]
      = serialize ({ req0 with qty := some "1" }.with_num_members == some "true")
          ((andFiltered [srvA, srvB] { req0 with qty := some "1" }).take k) :=
  (C6_filters_commute_and_compose [srvA, srvB] { req0 with qty := some "1" }
      [serverView false srvA]).1 (by decide)

/-- C7: a request that succeeds with `qty="0"` returns the empty sequence
no matter what the other filters selected, and a parsed `qty` at least as
large as the surviving record count returns every surviving record
unchanged, in the store's order. -/
theorem C7_qty_truncation (store : List Server) (req : Request) (out : List ServerView) :
    (req.qty = some "0" → list store req = .ok out → out = [])
  ∧ (∀ q n, req.qty = some q → pyInt? q = some n →
      (andFiltered store req).length ≤ n.toNat →
      list store req = .ok out →
      out = serialize (req.with_num_members == some "true") (andFiltered store req)) := by
  constructor
  · intro hq h
    have hsh := list_ok_shape store req out h
    have h0 : pyInt? "0" = some 0 := by decide
    have hptake : pyTake (some "0") (andFiltered store req) = [] := by
      simp [pyTake, h0]
    rw [hq, hptake] at hsh
    simpa [serialize] using hsh
  · intro q n hq hn hlen h
    have hsh := list_ok_shape store req out h
    rw [hq] at hsh
    have hqne : q ≠ "" := fun he => by
      rw [he, show pyInt? "" = none from by decide] at hn
      exact Option.noConfusion hn
    have hptake : pyTake (some q) (andFiltered store req) = andFiltered store req := by
      simp only [pyTake, ne_eq, hqne, not_false_eq_true, if_true, hn]
      exact List.take_of_length_le hlen
    rwa [hptake] at hsh

/-- C7 witness: `qty=5` over the two-server store returns both surviving
servers unchanged. -/
theorem C7_witness :
    [serverView false srvA, serverView false srvB]
      = serialize ({ req0 with qty := some "5" }.with_num_members == some "true")
          (andFiltered [srvA, srvB] { req0 with qty := some "5" }) :=
  (C7_qty_truncation [srvA, srvB] { req0 with qty := some "5" }
      [serverView false srvA, serverView false srvB]).2 "5" 5 rfl (by decide)
    (by decide) (by decide)

/-- C8: a present, non-empty category parameter restricts every successful
response to servers whose category name equals it exactly, and when no
stored server carries that category name the request (absent the
error-triggering parameters) succeeds with the empty sequence rather than
an error. -/
theorem C8_category_filtering (store : List Server) (req : Request) (out : List ServerView)
    (c : String) :
    (req.category = some c → c ≠ "" → list store req = .ok out →
      ∀ v ∈ out, v.categoryName = c)
  ∧ (req.category = some c → c ≠ "" →
      (req.by_user = some "true" → req.isAuthenticated = true) →
      (∀ sid, req.by_serverid = some sid → sid = "") →
      (∀ q, req.qty = some q → q ≠ "" → ∃ n, pyInt? q = some n ∧ 0 ≤ n) →
      (∀ s ∈ store, s.categoryName ≠ c) →
      list store req = .ok []) := by
  constructor
  · intro hc hcne h v hv
    rw [list_ok_shape store req out h] at hv
    simp only [serialize, List.mem_map] at hv
    obtain ⟨s, hs, rfl⟩ := hv
    have hs1 : s ∈ andFiltered store req := pyTake_subset _ _ hs
    simp only [andFiltered, List.mem_filter] at hs1
    have hs2 := hs1.2
    rw [hc] at hs2
    simp only [Bool.and_eq_true] at hs2
    have hcat := hs2.1.1
    simp only [catPred, ne_eq, hcne, not_false_eq_true, if_true, beq_iff_eq] at hcat
    simpa [serverView] using hcat
  · intro hc hcne hbu hbs hqty hnone
    have hempty : categoryFilter req.category store = [] := by
      rw [hc]
      simp only [categoryFilter, ne_eq, hcne, not_false_eq_true, if_true]
      rw [List.filter_eq_nil_iff]
      intro s hsmem
      simp only [beq_iff_eq]
      exact hnone s hsmem
    have hmem : memberFilter (req.by_user == some "true") req.userId
        (categoryFilter req.category store) = [] := by
      rw [hempty]
      unfold memberFilter
      cases (req.by_user == some "true") <;> simp
    have hgate : ((req.by_user == some "true") && !req.isAuthenticated) = false := by
      cases hb : req.by_user == some "true" with
      | false => simp
      | true =>
        have ha := hbu (beq_iff_eq.mp hb)
        simp [ha]
    have hok : ∀ qs : List Server, qs = [] →
        (qtyStep (req.with_num_members == some "true") req.qty qs).2 = .ok [] := by
      intro qs hqs
      subst hqs
      cases hqv : req.qty with
      | none => simp [qtyStep, serialize]
      | some q =>
        by_cases hqe : q = ""
        · simp [qtyStep, hqe, serialize]
        · obtain ⟨n, hpn, hge⟩ := hqty q hqv hqe
          have hnlt : ¬ n < 0 := Int.not_lt.mpr hge
          simp [qtyStep, hqe, hpn, hnlt, serialize]
    simp only [list, listFrom, hgate, Bool.false_eq_true, if_false]
    rw [hmem]
    cases hbsv : req.by_serverid with
    | none => exact hok [] rfl
    | some sid =>
      have hside : sid = "" := hbs sid hbsv
      simp only [hside, ne_eq, not_true_eq_false, if_false]
      exact hok [] rfl

/-- C8 witness: category Nope matches no stored server, and the request
succeeds with the empty sequence. -/
theorem C8_witness :
    list [srvA] { req0 with category := some "Nope" } = .ok [] :=
  (C8_category_filtering [srvA] { req0 with category := some "Nope" } [] "Nope").2
    rfl (by decide) (fun h => Option.noConfusion h) (fun sid h => Option.noConfusion h)
    (fun q h => Option.noConfusion h) (by decide)

/-- C9: when every earlier step passes, a non-empty `qty` that does not
parse as an integer escapes as the unhandled Python ValueError, which is a
different kind from both the authentication error and every validation
error. -/
theorem C9_malformed_qty_value_error (store : List Server) (req : Request) (q : String)
    (hq : req.qty = some q) (hqne : q ≠ "") (hbad : pyInt? q = none)
    (hbu : req.by_user = some "true" → req.isAuthenticated = true)
    (hsv : ∀ sid, req.by_serverid = some sid → sid ≠ "" →
        req.isAuthenticated = true ∧ ∃ n, pyInt? sid = some n ∧
          (memberFilter (req.by_user == some "true") req.userId
            (categoryFilter req.category store)).filter (fun s => s.id == n) ≠ []) :
    list store req = .error .unhandledValueError
    ∧ Error.unhandledValueError ≠ Error.authenticationFailed
    ∧ (∀ d, Error.unhandledValueError ≠ Error.validationError d) := by
  refine ⟨?_, fun h => Error.noConfusion h, fun d h => Error.noConfusion h⟩
  have hgate : ((req.by_user == some "true") && !req.isAuthenticated) = false := by
    cases hb : req.by_user == some "true" with
    | false => simp
    | true =>
      have ha := hbu (beq_iff_eq.mp hb)
      simp [ha]
  have herr : ∀ qs : List Server,
      (qtyStep (req.with_num_members == some "true") req.qty qs).2
        = .error .unhandledValueError := by
    intro qs
    simp [qtyStep, hq, hqne, hbad]
  simp only [list, listFrom, hgate, Bool.false_eq_true, if_false]
  cases hbsv : req.by_serverid with
  | none => exact herr _
  | some sid =>
    by_cases hside : sid = ""
    · simp only [hside, ne_eq, not_true_eq_false, if_false]
      exact herr _
    · obtain ⟨hauth, n, hpn, hne'⟩ := hsv sid hbsv hside
      have hemp := isEmpty_false_of_ne_nil hne'
      simp only [ne_eq, hside, not_false_eq_true, if_true, hauth, Bool.not_true,
        Bool.false_eq_true, if_false, hpn]
      simp only [hemp, Bool.false_eq_true, if_false]
      exact herr _

/-- C9 witness: `qty=abc` alone, from an authenticated caller over the empty
store, escapes as the unhandled ValueError. -/
theorem C9_witness :
    list [] { req0 with qty := some "abc" } = .error .unhandledValueError :=
  (C9_malformed_qty_value_error [] { req0 with qty := some "abc" } "abc"
      rfl (by decide) (by decide) (fun h => Option.noConfusion h) (fun sid h => Option.noConfusion h)).1

/-- C10: when an authenticated request's `by_serverid` resolves to a server
surviving the earlier filters, adding `qty="0"` does not produce the
not-found validation error: the existence check runs before the `qty`
slice, so the request succeeds with an empty sequence. -/
theorem C10_serverid_before_qty (store : List Server) (req : Request) (sid : String) (n : Int)
    (hauth : req.isAuthenticated = true)
    (hsid : req.by_serverid = some sid) (hne : sid ≠ "")
    (hparse : pyInt? sid = some n) (hqty : req.qty = some "0")
    (hsurv : (memberFilter (req.by_user == some "true") req.userId
        (categoryFilter req.category store)).filter (fun s => s.id == n) ≠ []) :
    list store req = .ok [] := by
  have hgate : ((req.by_user == some "true") && !req.isAuthenticated) = false := by
    simp [hauth]
  have hemp := isEmpty_false_of_ne_nil hsurv
  have h0 : pyInt? "0" = some 0 := by decide
  simp only [list, listFrom, hgate, Bool.false_eq_true, if_false, hsid, ne_eq, hne,
    not_false_eq_true, if_true, hauth, Bool.not_true, hparse, hemp]
  simp [qtyStep, hqty, h0, serialize]

/-- C10 witness: `by_serverid=1` resolves to the stored server and `qty=0`
still succeeds, with an empty response instead of the not-found error. -/
theorem C10_witness :
    list [srvA] { req0 with by_serverid := some "1", qty := some "0" } = .ok [] :=
  C10_serverid_before_qty [srvA] { req0 with by_serverid := some "1", qty := some "0" }
    "1" 1 rfl rfl (by decide) (by decide) rfl (by decide)

end DrfChat
